import Mathlib

/-!
Shallow embedding of the persistence layer of the Movies app
(`movie_storage_sql.py`): an SQLite-backed store with a module-level
schema-bootstrap block, a user directory, and per-user movie CRUD.

The embedding models the database as an explicit state (`DB`) holding the
two tables plus the schema flags the bootstrap block manipulates, and each
Python function as a state-passing Lean function.  Raised Python
exceptions are modelled by the `Raised` error channel; console messages
relevant to the claims are modelled by `UpdateMsg`.  SQL `REAL` ratings
are modelled by `Rat` (no arithmetic is ever performed on them, they pass
through the store unchanged).
-/

namespace MoviesApp

/-- A row of the `users` table: `id INTEGER PRIMARY KEY AUTOINCREMENT`,
`name TEXT UNIQUE NOT NULL`. -/
structure UserRow where
  id : Nat
  name : String
deriving DecidableEq

/-- A row of the `movies` table.  `poster_url` is a nullable column;
`user_id` is nullable at the storage level in legacy databases (the
column is added by an `ALTER TABLE` without a default), hence `Option`. -/
structure MovieRow where
  id : Nat
  title : String
  year : Int
  rating : Rat
  poster_url : Option String
  user_id : Option Nat
deriving DecidableEq

/-- The whole store: the two tables, plus the schema facts the
module-level bootstrap block can change (whether each table exists and
whether the two retrofitted `movies` columns exist).  The `next…Id`
counters model SQLite AUTOINCREMENT key assignment. -/
structure DB where
  usersTable : Bool
  moviesTable : Bool
  hasPosterCol : Bool
  hasUserIdCol : Bool
  users : List UserRow
  movies : List MovieRow
  nextUserId : Nat
  nextMovieId : Nat
deriving DecidableEq

/-- A Python exception propagated to the caller by the storage layer. -/
inductive Raised where
  | valueErrorDuplicate (title : String)
  | keyErrorNotFound (title : String)
deriving DecidableEq

/-- The console message printed by `update_movie` (which prints rather
than raising in every one of its outcomes). -/
inductive UpdateMsg where
  | noUpdates
  | notFoundMsg (title : String)
  | updatedMsg (title : String)
deriving DecidableEq

/-- A value inside a movie-attribute dictionary returned by
`list_movies` (SQLite INTEGER, REAL, TEXT or NULL). -/
inductive Value where
  | intV (i : Int)
  | numV (q : Rat)
  | strV (s : String)
  | nullV
deriving DecidableEq

/-- ASCII-only lower casing of one character, as used by the SQLite
`NOCASE` collation (only `A`–`Z` fold). -/
def asciiLowerChar (c : Char) : Char :=
  if 65 ≤ c.toNat ∧ c.toNat ≤ 90 then Char.ofNat (c.toNat + 32) else c

/-- ASCII-only lower casing of a string (SQLite `NOCASE`). -/
def asciiLower (s : String) : String :=
  String.mk (s.data.map asciiLowerChar)

/-- Lexicographic (byte-wise) `≤` on character lists: the SQLite default
BINARY collation order (UTF-8 byte order coincides with code-point
order). -/
def charListLe : List Char → List Char → Bool
  | [], _ => true
  | _ :: _, [] => false
  | a :: as, b :: bs =>
    if a.toNat < b.toNat then true
    else if b.toNat < a.toNat then false
    else charListLe as bs

/-- Byte-wise string comparison (SQLite BINARY collation). -/
def strLe (s t : String) : Bool :=
  charListLe s.data t.data

/-- Ordering used by `ORDER BY title COLLATE NOCASE ASC` in
`list_movies`. -/
def titleLe (a b : MovieRow) : Prop :=
  strLe (asciiLower a.title) (asciiLower b.title) = true

instance : DecidableRel titleLe := fun a b =>
  inferInstanceAs (Decidable (strLe (asciiLower a.title) (asciiLower b.title) = true))

/-- Ordering used by `ORDER BY name ASC` in `list_users`: the SQLite
default BINARY collation, with no case folding. -/
def nameLe (a b : UserRow) : Prop :=
  strLe a.name b.name = true

instance : DecidableRel nameLe := fun a b =>
  inferInstanceAs (Decidable (strLe a.name b.name = true))

/-- Modelled from the spec: the ordering the specification asserts for
`list_users` — name ascending compared case-insensitively.  Used only to
compare the specified behaviour with the implemented one. -/
def nameLeCI (a b : UserRow) : Prop :=
  strLe (asciiLower a.name) (asciiLower b.name) = true

instance : DecidableRel nameLeCI := fun a b =>
  inferInstanceAs (Decidable (strLe (asciiLower a.name) (asciiLower b.name) = true))

/-- `SELECT id, name FROM users ORDER BY name ASC` — all users, sorted
by name under the default (case-sensitive) collation. -/
def list_users (db : DB) : List (Nat × String) :=
  (List.insertionSort nameLe db.users).map (fun u => (u.id, u.name))

/-- Modelled from the spec: `list_users` as the specification describes
it, ordered by name ascending compared case-insensitively.  Only used to
exhibit where the implementation deviates from this description. -/
def list_users_spec (db : DB) : List (Nat × String) :=
  (List.insertionSort nameLeCI db.users).map (fun u => (u.id, u.name))

/-- The `WHERE user_id = :uid AND title = :t` condition shared by the
duplicate check of `add_movie` and (with the conjuncts written in the
other order) the `WHERE` clauses of `delete_movie` and `update_movie`. -/
def movieMatches (title : String) (user_id : Nat) (m : MovieRow) : Bool :=
  decide (m.user_id = some user_id) && decide (m.title = title)

/-- The rows of `movies` belonging to one user
(`WHERE user_id = :uid`). -/
def ownerRows (user_id : Nat) (db : DB) : List MovieRow :=
  db.movies.filter (fun m => decide (m.user_id = some user_id))

/-- The SQLite value of the nullable `poster_url` column. -/
def posterValue : Option String → Value
  | some s => .strV s
  | none => .nullV

/-- The Python dict `{"year": row[1], "rating": row[2],
"poster_url": row[3]}` built by `list_movies` for one row. -/
def rowAttrs (m : MovieRow) : List (String × Value) :=
  [("year", .intV m.year), ("rating", .numV m.rating),
   ("poster_url", posterValue m.poster_url)]

/-- Python-dict assignment `d[k] = v`: overwrite in place if the key is
present, append otherwise. -/
def dictInsert {β : Type} (k : String) (v : β) :
    List (String × β) → List (String × β)
  | [] => [(k, v)]
  | (k2, v2) :: rest =>
      if k2 = k then (k2, v) :: rest else (k2, v2) :: dictInsert k v rest

/-- Python-dict lookup `d[k]` (as an `Option`). -/
def dictFind {β : Type} (k : String) : List (String × β) → Option β
  | [] => none
  | (k2, v) :: rest => if k2 = k then some v else dictFind k rest

/-- The dict comprehension of `list_movies`: build a dict keyed by title,
in row order. -/
def dictOfRows (rows : List MovieRow) : List (String × List (String × Value)) :=
  rows.foldl (fun d m => dictInsert m.title (rowAttrs m) d) []

/-- `list_movies(user_id)`: the rows of the given user, ordered by
`title COLLATE NOCASE ASC`, turned into a title-keyed dict of attribute
dicts. -/
def list_movies (user_id : Nat) (db : DB) :
    List (String × List (String × Value)) :=
  dictOfRows (List.insertionSort titleLe (ownerRows user_id db))

/-- `add_movie(title, year, rating, poster_url, user_id)`: raise
`ValueError` if a row with this title already exists for this user,
otherwise insert the new row.  Returns the raised exception (if any) and
the post-call store. -/
def add_movie (title : String) (year : Int) (rating : Rat)
    (poster_url : Option String) (user_id : Nat) (db : DB) :
    Option Raised × DB :=
  if db.movies.any (movieMatches title user_id) then
    (some (.valueErrorDuplicate title), db)
  else
    (none,
     { db with
        movies := db.movies ++
          [{ id := db.nextMovieId, title := title, year := year,
             rating := rating, poster_url := poster_url,
             user_id := some user_id }],
        nextMovieId := db.nextMovieId + 1 })

/-- `delete_movie(title, user_id)`: run the SQL `DELETE` (which removes
every matching row), commit, then raise `KeyError` when the reported
rowcount is zero. -/
def delete_movie (title : String) (user_id : Nat) (db : DB) :
    Option Raised × DB :=
  let remaining := db.movies.filter (fun m => !(movieMatches title user_id m))
  let rowcount := db.movies.length - remaining.length
  if rowcount = 0 then
    (some (.keyErrorNotFound title), { db with movies := remaining })
  else
    (none, { db with movies := remaining })

/-- The effect of the dynamically built `SET` clause of `update_movie`
on one matching row: each supplied field is assigned, each omitted field
keeps its current value. -/
def applyUpdates (rating : Option Rat) (year : Option Int)
    (poster_url : Option String) (m : MovieRow) : MovieRow :=
  { m with
      rating := match rating with | some r => r | none => m.rating,
      year := match year with | some y => y | none => m.year,
      poster_url := match poster_url with | some p => some p | none => m.poster_url }

/-- `update_movie(title, user_id, rating=None, year=None,
poster_url=None)`: return immediately when no field is supplied,
otherwise run the SQL `UPDATE` on every matching row, commit, and print
either a not-found or a success message depending on the rowcount.  It
raises no exception in any branch (first component always `none`). -/
def update_movie (title : String) (user_id : Nat) (rating : Option Rat)
    (year : Option Int) (poster_url : Option String) (db : DB) :
    Option Raised × UpdateMsg × DB :=
  if rating.isNone && year.isNone && poster_url.isNone then
    (none, .noUpdates, db)
  else
    let rowcount := (db.movies.filter (movieMatches title user_id)).length
    let db2 :=
      { db with
          movies := db.movies.map (fun m =>
            if movieMatches title user_id m then
              applyUpdates rating year poster_url m
            else m) }
    if rowcount = 0 then (none, .notFoundMsg title, db2)
    else (none, .updatedMsg title, db2)

/-- Which statements of the module-level bootstrap block hit a store
failure (disk error, corruption, …) in a given run.  `false` everywhere
models the ordinary failure-free pass. -/
structure Faults where
  createUsersTable : Bool
  createMoviesTable : Bool
  alterPosterCol : Bool
  alterUserIdCol : Bool
  ensureDefaultUser : Bool
  backfillOwners : Bool
deriving DecidableEq

/-- The failure-free bootstrap run. -/
def noFaults : Faults :=
  { createUsersTable := false, createMoviesTable := false,
    alterPosterCol := false, alterUserIdCol := false,
    ensureDefaultUser := false, backfillOwners := false }

/-- An unclassified store failure propagated out of the bootstrap
block. -/
inductive StoreFailure where
  | failure
deriving DecidableEq

/-- The name of the synthetic backfill user. -/
def defaultUserName : String := "Default"

/-- `SELECT … FROM users WHERE name = :n` (names are unique, so the
first hit is the row). -/
def findUser (name : String) (users : List UserRow) : Option UserRow :=
  users.find? (fun u => decide (u.name = name))

/-- The module-level schema-bootstrap block, statement by statement:
create the two tables if absent; try to add the two retrofitted columns,
swallowing every `ALTER TABLE` exception with a bare `except: pass`;
insert-or-ignore the `"Default"` user; and backfill `NULL` `user_id`
rows only when the `user_id` column was added in this very pass
(`added_user_id`).  Statements outside the two `try` blocks propagate
their failures. -/
def bootstrap (f : Faults) (s0 : DB) : Except StoreFailure DB :=
  if f.createUsersTable then .error .failure else
  let s1 := if s0.usersTable then s0
            else { s0 with usersTable := true, users := [], nextUserId := 1 }
  if f.createMoviesTable then .error .failure else
  let s2 := if s1.moviesTable then s1
            else { s1 with moviesTable := true, movies := [], nextMovieId := 1,
                           hasPosterCol := true, hasUserIdCol := true }
  let s3 := if f.alterPosterCol || s2.hasPosterCol then s2
            else { s2 with hasPosterCol := true }
  let added_user_id := !f.alterUserIdCol && !s3.hasUserIdCol
  let s4 := if added_user_id then { s3 with hasUserIdCol := true } else s3
  if f.ensureDefaultUser then .error .failure else
  let s5 := if (findUser defaultUserName s4.users).isSome then s4
            else { s4 with
                     users := s4.users ++
                       [{ id := s4.nextUserId, name := defaultUserName }],
                     nextUserId := s4.nextUserId + 1 }
  let default_user_id := (findUser defaultUserName s5.users).map (fun u => u.id)
  if added_user_id then
    if f.backfillOwners then .error .failure else
    .ok { s5 with
            movies := s5.movies.map (fun m =>
              if m.user_id = none then { m with user_id := default_user_id }
              else m) }
  else
    .ok s5

/-- Did the bootstrap pass complete (no exception escaped)? -/
def bootOk (e : Except StoreFailure DB) : Bool :=
  match e with
  | .ok _ => true
  | .error _ => false

/-- Fault configuration: only the `CREATE TABLE users` statement fails. -/
def faultCreateUsers : Faults :=
  { noFaults with createUsersTable := true }

/-- Fault configuration: only the `CREATE TABLE movies` statement fails. -/
def faultCreateMovies : Faults :=
  { noFaults with createMoviesTable := true }

/-- Fault configuration: only the `ALTER TABLE … ADD COLUMN poster_url`
statement fails. -/
def faultAlterPoster : Faults :=
  { noFaults with alterPosterCol := true }

/-- Fault configuration: only the `ALTER TABLE … ADD COLUMN user_id`
statement fails. -/
def faultAlterUserId : Faults :=
  { noFaults with alterUserIdCol := true }

/-- Fault configuration: only the backfill `UPDATE` statement fails. -/
def faultBackfill : Faults :=
  { noFaults with backfillOwners := true }

/-- A bootstrapped store with a single user `alice` (id 1) and no
movies. -/
def dbAlice : DB :=
  { usersTable := true, moviesTable := true, hasPosterCol := true,
    hasUserIdCol := true, users := [{ id := 1, name := "alice" }],
    movies := [], nextUserId := 2, nextMovieId := 1 }

/-- One stored movie row owned by user 1. -/
def duneRow : MovieRow :=
  { id := 1, title := "Dune", year := 2021, rating := 8,
    poster_url := none, user_id := some 1 }

/-- `dbAlice` after storing `duneRow`. -/
def dbDune : DB :=
  { dbAlice with movies := [duneRow], nextMovieId := 2 }

/-- A store in which the per-owner uniqueness invariant is already
violated: two rows with the same title for the same owner. -/
def dbTwoDune : DB :=
  { dbAlice with
      movies := [duneRow,
                 { id := 2, title := "Dune", year := 1984, rating := 6,
                   poster_url := none, user_id := some 1 }],
      nextMovieId := 3 }

/-- Two users whose case-sensitive and case-insensitive name orders
disagree: binary order puts `"B"` (0x42) before `"a"` (0x61), while
case-insensitive order puts `"a"` first. -/
def dbTwoUsers : DB :=
  { dbAlice with
      users := [{ id := 1, name := "B" }, { id := 2, name := "a" }],
      nextUserId := 3 }

/-- A bootstrapped store with no users at all. -/
def dbNoUsers : DB :=
  { dbAlice with users := [] }

/-- The attribute dict actually produced by `list_movies` for a movie
added as `("Dune", 2021, 8, None)`. -/
def duneAttrs : List (String × Value) :=
  [("year", Value.intV 2021), ("rating", Value.numV 8),
   ("poster_url", Value.nullV)]

/-- A legacy-shaped store whose `movies` table already has the `user_id`
column but still contains a row with a `NULL` owner (e.g. after an
out-of-band edit). -/
def dbNullOwner : DB :=
  { usersTable := true, moviesTable := true, hasPosterCol := true,
    hasUserIdCol := true, users := [],
    movies := [{ id := 1, title := "Old", year := 1999, rating := 5,
                 poster_url := none, user_id := none }],
    nextUserId := 1, nextMovieId := 2 }

/-- `dbNullOwner` after a failure-free bootstrap pass: the `"Default"`
user has been created but the `NULL`-owner row is untouched. -/
def dbNullOwnerBoot : DB :=
  { dbNullOwner with
      users := [{ id := 1, name := defaultUserName }], nextUserId := 2 }

/-- A store whose `movies` table lacks the `poster_url` column, so that
the `ALTER TABLE` adding it is a genuine (non-already-exists) failure
when it errors. -/
def dbNoPoster : DB :=
  { usersTable := true, moviesTable := true, hasPosterCol := false,
    hasUserIdCol := true, users := [{ id := 1, name := defaultUserName }],
    movies := [], nextUserId := 2, nextMovieId := 1 }

/-- A pre-user-scoping legacy store: the `movies` table exists but has
neither retrofitted column, and its rows predate ownership. -/
def dbLegacy : DB :=
  { usersTable := true, moviesTable := true, hasPosterCol := false,
    hasUserIdCol := false, users := [],
    movies := [{ id := 1, title := "Old", year := 1999, rating := 5,
                 poster_url := none, user_id := none }],
    nextUserId := 1, nextMovieId := 2 }

/-!
Theorems.  First the generic lemmas about the ordering, the dict model
and `list_movies`, then one theorem per claim (with its witness or
counterexample).
-/

theorem charListLe_cons (a b : Char) (as bs : List Char) :
    charListLe (a :: as) (b :: bs) = true ↔
      a.toNat < b.toNat ∨ (a.toNat = b.toNat ∧ charListLe as bs = true) := by
  simp only [charListLe]
  split_ifs with h1 h2
  · simp [h1]
  · simp only [Bool.false_eq_true, false_iff]
    rintro (h | ⟨h, _⟩) <;> omega
  · have heq : a.toNat = b.toNat := by omega
    simp [heq]

theorem charListLe_total (x y : List Char) :
    charListLe x y = true ∨ charListLe y x = true := by
  induction x generalizing y with
  | nil => exact Or.inl rfl
  | cons a as ih =>
    cases y with
    | nil => exact Or.inr rfl
    | cons b bs =>
      rcases Nat.lt_trichotomy a.toNat b.toNat with h | h | h
      · exact Or.inl ((charListLe_cons a b as bs).2 (Or.inl h))
      · rcases ih bs with h2 | h2
        · exact Or.inl ((charListLe_cons a b as bs).2 (Or.inr ⟨h, h2⟩))
        · exact Or.inr ((charListLe_cons b a bs as).2 (Or.inr ⟨h.symm, h2⟩))
      · exact Or.inr ((charListLe_cons b a bs as).2 (Or.inl h))

theorem charListLe_trans : ∀ {x y z : List Char},
    charListLe x y = true → charListLe y z = true → charListLe x z = true
  | [], _, _, _, _ => rfl
  | _ :: _, [], _, h1, _ => by simp [charListLe] at h1
  | _ :: _, _ :: _, [], _, h2 => by simp [charListLe] at h2
  | a :: as, b :: bs, c :: cs, h1, h2 => by
    rcases (charListLe_cons a b as bs).1 h1 with hab | ⟨hab, htail1⟩ <;>
      rcases (charListLe_cons b c bs cs).1 h2 with hbc | ⟨hbc, htail2⟩
    · exact (charListLe_cons a c as cs).2 (Or.inl (Nat.lt_trans hab hbc))
    · exact (charListLe_cons a c as cs).2 (Or.inl (hbc ▸ hab))
    · exact (charListLe_cons a c as cs).2 (Or.inl (hab ▸ hbc))
    · exact (charListLe_cons a c as cs).2
        (Or.inr ⟨hab.trans hbc, charListLe_trans htail1 htail2⟩)

theorem movieMatches_eq_true (t : String) (u : Nat) (m : MovieRow) :
    movieMatches t u m = true ↔ (m.title = t ∧ m.user_id = some u) := by
  simp [movieMatches, and_comm]

theorem movieMatches_eq_false (t : String) (u : Nat) (m : MovieRow) :
    movieMatches t u m = false ↔ ¬(m.title = t ∧ m.user_id = some u) := by
  rw [← movieMatches_eq_true t u m]
  cases movieMatches t u m <;> simp

theorem movieMatches_applyUpdates (t : String) (u : Nat) (ro : Option Rat)
    (yo : Option Int) (po : Option String) (m : MovieRow) :
    movieMatches t u (applyUpdates ro yo po m) = movieMatches t u m := rfl

/-! Helper lemmas about the Python-dict model and `list_movies`. -/

theorem dictFind_dictInsert_self {β : Type} (k : String) (v : β)
    (d : List (String × β)) : dictFind k (dictInsert k v d) = some v := by
  induction d with
  | nil => simp [dictInsert, dictFind]
  | cons kv rest ih =>
    obtain ⟨k2, v2⟩ := kv
    by_cases h : k2 = k
    · simp [dictInsert, dictFind, h]
    · simp [dictInsert, dictFind, h, ih]

theorem dictFind_dictInsert_of_ne {β : Type} {t k : String} (hne : k ≠ t)
    (v : β) (d : List (String × β)) :
    dictFind t (dictInsert k v d) = dictFind t d := by
  induction d with
  | nil => simp [dictInsert, dictFind, hne]
  | cons kv rest ih =>
    obtain ⟨k2, v2⟩ := kv
    by_cases h : k2 = k
    · subst h
      simp [dictInsert, dictFind, hne]
    · simp [dictInsert, dictFind, h, ih]

theorem dictFind_foldl_of_no_title (t : String) :
    ∀ (l : List MovieRow) (d : List (String × List (String × Value))),
      (∀ m ∈ l, m.title ≠ t) →
      dictFind t (l.foldl (fun d m => dictInsert m.title (rowAttrs m) d) d) =
        dictFind t d := by
  intro l
  induction l with
  | nil => intro d _; rfl
  | cons x xs ih =>
    intro d hno
    have hx : x.title ≠ t := hno x (List.mem_cons_self x xs)
    have hxs : ∀ m ∈ xs, m.title ≠ t := fun m hm => hno m (List.mem_cons_of_mem x hm)
    simp only [List.foldl_cons]
    rw [ih _ hxs, dictFind_dictInsert_of_ne hx]

theorem dictFind_foldl_unique (t : String) :
    ∀ (l : List MovieRow) (d : List (String × List (String × Value)))
      (m0 : MovieRow),
      l.filter (fun m => decide (m.title = t)) = [m0] →
      dictFind t (l.foldl (fun d m => dictInsert m.title (rowAttrs m) d) d) =
        some (rowAttrs m0) := by
  intro l
  induction l with
  | nil => intro d m0 h; simp at h
  | cons x xs ih =>
    intro d m0 h
    by_cases hx : x.title = t
    · rw [List.filter_cons_of_pos (by simpa using hx)] at h
      obtain ⟨rfl, htail⟩ : x = m0 ∧ xs.filter (fun m => decide (m.title = t)) = [] := by
        constructor
        · exact (List.cons_eq_cons.1 h).1
        · exact (List.cons_eq_cons.1 h).2
      have hno : ∀ m ∈ xs, m.title ≠ t := by
        intro m hm
        have := List.filter_eq_nil_iff.1 htail m hm
        simpa using this
      simp only [List.foldl_cons]
      rw [dictFind_foldl_of_no_title t xs _ hno, ← hx, dictFind_dictInsert_self]
    · rw [List.filter_cons_of_neg (by simpa using hx)] at h
      simp only [List.foldl_cons]
      exact ih _ m0 h

theorem filter_title_ownerRows (t : String) (u : Nat) (db : DB) :
    (ownerRows u db).filter (fun m => decide (m.title = t)) =
      db.movies.filter (movieMatches t u) := by
  unfold ownerRows movieMatches
  rw [List.filter_filter]
  exact List.filter_congr (fun m _ => Bool.and_comm _ _)

/-- The central `list_movies` lookup lemma: when exactly one stored row
matches `(title, owner)`, the returned dict maps the title to that
attribute dict of that row. -/
theorem dictFind_list_movies (t : String) (u : Nat) (db : DB) (m0 : MovieRow)
    (h : db.movies.filter (movieMatches t u) = [m0]) :
    dictFind t (list_movies u db) = some (rowAttrs m0) := by
  have hperm :
      List.Perm
        ((List.insertionSort titleLe (ownerRows u db)).filter
          (fun m => decide (m.title = t)))
        ((ownerRows u db).filter (fun m => decide (m.title = t))) :=
    (List.perm_insertionSort titleLe (ownerRows u db)).filter _
  rw [filter_title_ownerRows, h] at hperm
  have hfil := List.perm_singleton.1 hperm
  unfold list_movies dictOfRows
  exact dictFind_foldl_unique t _ [] m0 hfil

theorem any_movieMatches_eq_false {t : String} {u : Nat} {db : DB}
    (habs : db.movies.any (movieMatches t u) = false) :
    ∀ m ∈ db.movies, movieMatches t u m = false := by
  intro m hm
  simpa using List.any_eq_false.1 habs m hm

theorem add_movie_eq_absent (t : String) (y : Int) (r : Rat)
    (p : Option String) (u : Nat) (db : DB)
    (habs : db.movies.any (movieMatches t u) = false) :
    add_movie t y r p u db =
      (none,
       { db with
          movies := db.movies ++
            [{ id := db.nextMovieId, title := t, year := y, rating := r,
               poster_url := p, user_id := some u }],
          nextMovieId := db.nextMovieId + 1 }) := by
  simp [add_movie, habs]

/-- Claim C6: for every owner `u` and title `t` already present for `u`,
`add_movie` fails with a duplicate error naming the title, writes no
row (the post-call store is the pre-call store), and consequently
`list_movies u` is unchanged by the failed call. -/
theorem C6_add_duplicate (u : Nat) (t : String) (y : Int) (r : Rat)
    (p : Option String) (db : DB)
    (hdup : db.movies.any (movieMatches t u) = true) :
    add_movie t y r p u db = (some (Raised.valueErrorDuplicate t), db) ∧
    list_movies u (add_movie t y r p u db).2 = list_movies u db := by
  refine ⟨by simp [add_movie, hdup], ?_⟩
  simp [add_movie, hdup]

theorem C6_add_duplicate_witness :
    dbDune.movies.any (movieMatches "Dune" 1) = true ∧
    (add_movie "Dune" 2021 8 none 1 dbDune =
        (some (Raised.valueErrorDuplicate "Dune"), dbDune) ∧
      list_movies 1 (add_movie "Dune" 2021 8 none 1 dbDune).2 =
        list_movies 1 dbDune) :=
  ⟨by decide, C6_add_duplicate 1 "Dune" 2021 8 none dbDune (by decide)⟩

/-- Claim C8: `delete_movie` removes the rows matching both title and
owner; when nothing matches it fails with a not-found error naming the
title and leaves the store unchanged, and when something matches it
succeeds, the surviving rows are exactly the stored rows that did not
match. -/
theorem C8_delete (t : String) (u : Nat) (db : DB) :
    (db.movies.any (movieMatches t u) = false →
      delete_movie t u db = (some (Raised.keyErrorNotFound t), db)) ∧
    (db.movies.any (movieMatches t u) = true →
      (delete_movie t u db).1 = none ∧
      (∀ m ∈ (delete_movie t u db).2.movies,
        m ∈ db.movies ∧ ¬(m.title = t ∧ m.user_id = some u)) ∧
      (∀ m ∈ db.movies, ¬(m.title = t ∧ m.user_id = some u) →
        m ∈ (delete_movie t u db).2.movies)) := by
  constructor
  · intro habs
    have hfil : db.movies.filter (fun m => !(movieMatches t u m)) = db.movies :=
      List.filter_eq_self.2 (fun m hm => by
        simp [any_movieMatches_eq_false habs m hm])
    simp [delete_movie, hfil]
  · intro hsome
    obtain ⟨m1, hm1, hmatch1⟩ := List.any_eq_true.1 hsome
    have hlt : (db.movies.filter (fun m => !(movieMatches t u m))).length <
        db.movies.length := by
      refine List.length_filter_lt_length_iff_exists.2 ⟨m1, hm1, ?_⟩
      simp [hmatch1]
    have hrc : ¬(db.movies.length -
        (db.movies.filter (fun m => !(movieMatches t u m))).length = 0) := by
      omega
    refine ⟨by simp [delete_movie, hrc], ?_, ?_⟩
    · intro m hm
      simp only [delete_movie, if_neg hrc] at hm
      have := List.mem_filter.1 hm
      refine ⟨this.1, ?_⟩
      have : movieMatches t u m = false := by simpa using this.2
      exact (movieMatches_eq_false t u m).1 this
    · intro m hm hno
      simp only [delete_movie, if_neg hrc]
      refine List.mem_filter.2 ⟨hm, ?_⟩
      simp [(movieMatches_eq_false t u m).2 hno]

theorem C8_delete_witness :
    delete_movie "Dune" 7 dbDune = (some (Raised.keyErrorNotFound "Dune"), dbDune) ∧
    (delete_movie "Dune" 1 dbDune).1 = none :=
  ⟨(C8_delete "Dune" 7 dbDune).1 (by decide),
   ((C8_delete "Dune" 1 dbDune).2 (by decide)).1⟩

/-- Claim C10 (implicit): the single SQL `DELETE` of `delete_movie`
removes every row matching `(title, owner)`, not at most one, and
reports success as long as at least one row matched — even when the
per-owner uniqueness invariant was violated and several rows matched. -/
theorem C10_delete_all (t : String) (u : Nat) (db : DB)
    (hsome : db.movies.any (movieMatches t u) = true) :
    (delete_movie t u db).1 = none ∧
    (∀ m ∈ (delete_movie t u db).2.movies, movieMatches t u m = false) ∧
    (∀ m ∈ db.movies, movieMatches t u m = false →
      m ∈ (delete_movie t u db).2.movies) := by
  obtain ⟨m1, hm1, hmatch1⟩ := List.any_eq_true.1 hsome
  have hlt : (db.movies.filter (fun m => !(movieMatches t u m))).length <
      db.movies.length := by
    refine List.length_filter_lt_length_iff_exists.2 ⟨m1, hm1, ?_⟩
    simp [hmatch1]
  have hrc : ¬(db.movies.length -
      (db.movies.filter (fun m => !(movieMatches t u m))).length = 0) := by
    omega
  refine ⟨by simp [delete_movie, hrc], ?_, ?_⟩
  · intro m hm
    simp only [delete_movie, if_neg hrc] at hm
    simpa using (List.mem_filter.1 hm).2
  · intro m hm hno
    simp only [delete_movie, if_neg hrc]
    exact List.mem_filter.2 ⟨hm, by simp [hno]⟩

theorem C10_delete_all_witness :
    dbTwoDune.movies.any (movieMatches "Dune" 1) = true ∧
    ((delete_movie "Dune" 1 dbTwoDune).1 = none ∧
     (∀ m ∈ (delete_movie "Dune" 1 dbTwoDune).2.movies,
        movieMatches "Dune" 1 m = false) ∧
     (∀ m ∈ dbTwoDune.movies, movieMatches "Dune" 1 m = false →
        m ∈ (delete_movie "Dune" 1 dbTwoDune).2.movies)) :=
  ⟨by decide, C10_delete_all "Dune" 1 dbTwoDune (by decide)⟩

/-- Claim C1 (counterexample): the claim asserts that `update_movie` on
an absent `(owner, title)` pair fails with an error raised to the
caller.  In fact `update_movie` raises nothing: at this concrete input
(title `"Solaris"` absent for owner 1, a rating supplied) it returns
normally — exception channel `none`, only a console message — and the
store is unchanged. -/
theorem C1_counterexample :
    update_movie "Solaris" 1 (some 9) none none dbDune =
      (none, UpdateMsg.notFoundMsg "Solaris", dbDune) := by decide

/-- Claim C1 (amended): for every owner `u` and title `t` with no
matching row, `update_movie` with at least one supplied field raises no
error; it returns normally with a not-found console message naming the
title and leaves the store unchanged. -/
theorem C1_update_absent (t : String) (u : Nat) (r : Option Rat)
    (y : Option Int) (p : Option String) (db : DB)
    (hsup : (r.isNone && y.isNone && p.isNone) = false)
    (habs : db.movies.any (movieMatches t u) = false) :
    update_movie t u r y p db = (none, UpdateMsg.notFoundMsg t, db) := by
  have hall := any_movieMatches_eq_false habs
  have hfil : db.movies.filter (movieMatches t u) = [] :=
    List.filter_eq_nil_iff.2 (fun m hm => by simp [hall m hm])
  have hmap : db.movies.map (fun m =>
      if movieMatches t u m then applyUpdates r y p m else m) = db.movies := by
    rw [List.map_congr_left (g := id) (fun m hm => by simp [hall m hm]),
      List.map_id]
  simp [update_movie, hsup, hfil, hmap]

theorem C1_update_absent_witness :
    ((some (9 : Rat)).isNone && (none : Option Int).isNone &&
        (none : Option String).isNone) = false ∧
    dbDune.movies.any (movieMatches "Dune" 7) = false ∧
    update_movie "Dune" 7 (some 9) none none dbDune =
      (none, UpdateMsg.notFoundMsg "Dune", dbDune) :=
  ⟨by decide, by decide,
   C1_update_absent "Dune" 7 (some 9) none none dbDune (by decide) (by decide)⟩

/-- Claim C2 (counterexample): the claim asserts that after a successful
add, `list_movies` maps the title to a five-key attribute set including
`note` and `external_id`.  The schema has no such columns: at this
concrete input the returned dict has exactly the keys `year`, `rating`
and `poster_url`, and lookups of `note` and `external_id` find
nothing. -/
theorem C2_counterexample :
    (add_movie "Dune" 2021 8 none 1 dbAlice).1 = none ∧
    dictFind "Dune" (list_movies 1 (add_movie "Dune" 2021 8 none 1 dbAlice).2) =
      some duneAttrs ∧
    dictFind "note" duneAttrs = none ∧
    dictFind "external_id" duneAttrs = none := by decide

/-- Claim C2 (amended): for every owner `u`, title `t` absent for `u`,
year `y` and rating `r`, after `add_movie(t, y, r, None, u)` succeeds,
`list_movies u` maps `t` to exactly
`{year: y, rating: r, poster_url: None}` — the three columns the schema
actually has; `note` and `external_id` do not exist. -/
theorem C2_add_then_list (u : Nat) (t : String) (y : Int) (r : Rat) (db : DB)
    (habs : db.movies.any (movieMatches t u) = false) :
    (add_movie t y r none u db).1 = none ∧
    dictFind t (list_movies u (add_movie t y r none u db).2) =
      some [("year", Value.intV y), ("rating", Value.numV r),
            ("poster_url", Value.nullV)] := by
  have hall := any_movieMatches_eq_false habs
  have hsnd : (add_movie t y r none u db).2 =
      { db with
          movies := db.movies ++
            [{ id := db.nextMovieId, title := t, year := y, rating := r,
               poster_url := none, user_id := some u }],
          nextMovieId := db.nextMovieId + 1 } := by
    simp [add_movie, habs]
  refine ⟨by simp [add_movie, habs], ?_⟩
  rw [hsnd]
  have hfil :
      ({ db with
          movies := db.movies ++
            [{ id := db.nextMovieId, title := t, year := y, rating := r,
               poster_url := none, user_id := some u }],
          nextMovieId := db.nextMovieId + 1 } : DB).movies.filter
        (movieMatches t u) =
      [{ id := db.nextMovieId, title := t, year := y, rating := r,
         poster_url := none, user_id := some u }] := by
    show (db.movies ++ _).filter (movieMatches t u) = _
    rw [List.filter_append,
      List.filter_eq_nil_iff.2 (fun m hm => by simp [hall m hm])]
    simp [movieMatches]
  rw [dictFind_list_movies t u _ _ hfil]
  rfl

theorem C2_add_then_list_witness :
    dbAlice.movies.any (movieMatches "Dune" 1) = false ∧
    ((add_movie "Dune" 2021 8 none 1 dbAlice).1 = none ∧
     dictFind "Dune" (list_movies 1 (add_movie "Dune" 2021 8 none 1 dbAlice).2) =
       some [("year", Value.intV 2021), ("rating", Value.numV 8),
             ("poster_url", Value.nullV)]) :=
  ⟨by decide, C2_add_then_list 1 "Dune" 2021 8 dbAlice (by decide)⟩

/-- Claim C7: per-owner uniqueness scoping — two distinct owners can
each add the same title: both calls succeed and each appends a row
owned by its respective owner only. -/
theorem C7_per_owner (u1 u2 : Nat) (t : String) (y1 y2 : Int) (r1 r2 : Rat)
    (p1 p2 : Option String) (db : DB)
    (hne : u1 ≠ u2)
    (h1 : db.movies.any (movieMatches t u1) = false)
    (h2 : db.movies.any (movieMatches t u2) = false) :
    (add_movie t y1 r1 p1 u1 db).1 = none ∧
    (add_movie t y2 r2 p2 u2 (add_movie t y1 r1 p1 u1 db).2).1 = none ∧
    (add_movie t y2 r2 p2 u2 (add_movie t y1 r1 p1 u1 db).2).2.movies =
      db.movies ++
        [{ id := db.nextMovieId, title := t, year := y1, rating := r1,
           poster_url := p1, user_id := some u1 }] ++
        [{ id := db.nextMovieId + 1, title := t, year := y2, rating := r2,
           poster_url := p2, user_id := some u2 }] := by
  have hrow : movieMatches t u2
      { id := db.nextMovieId, title := t, year := y1, rating := r1,
        poster_url := p1, user_id := some u1 } = false := by
    simp [movieMatches, hne]
  have hany2 :
      ({ db with
          movies := db.movies ++
            [{ id := db.nextMovieId, title := t, year := y1, rating := r1,
               poster_url := p1, user_id := some u1 }],
          nextMovieId := db.nextMovieId + 1 } : DB).movies.any
        (movieMatches t u2) = false := by
    show (db.movies ++ _).any _ = false
    rw [List.any_append, h2]
    simpa using hrow
  have e1 := add_movie_eq_absent t y1 r1 p1 u1 db h1
  have e2 := add_movie_eq_absent t y2 r2 p2 u2 _ hany2
  refine ⟨by rw [e1], ?_, ?_⟩
  · rw [e1]
    exact congrArg Prod.fst e2
  · rw [e1]
    rw [show (add_movie t y2 r2 p2 u2
        ((none : Option Raised),
         ({ db with
             movies := db.movies ++
               [{ id := db.nextMovieId, title := t, year := y1, rating := r1,
                  poster_url := p1, user_id := some u1 }],
             nextMovieId := db.nextMovieId + 1 } : DB)).2).2.movies =
        (db.movies ++
          [{ id := db.nextMovieId, title := t, year := y1, rating := r1,
             poster_url := p1, user_id := some u1 }]) ++
          [{ id := db.nextMovieId + 1, title := t, year := y2, rating := r2,
             poster_url := p2, user_id := some u2 }] from
      congrArg (fun q => q.2.movies) e2]

theorem C7_per_owner_witness :
    (1 : Nat) ≠ 2 ∧
    dbAlice.movies.any (movieMatches "Dune" 1) = false ∧
    dbAlice.movies.any (movieMatches "Dune" 2) = false ∧
    ((add_movie "Dune" 2021 8 none 1 dbAlice).1 = none ∧
     (add_movie "Dune" 1984 6 none 2 (add_movie "Dune" 2021 8 none 1 dbAlice).2).1 = none ∧
     (add_movie "Dune" 1984 6 none 2 (add_movie "Dune" 2021 8 none 1 dbAlice).2).2.movies =
       dbAlice.movies ++
         [{ id := dbAlice.nextMovieId, title := "Dune", year := 2021,
            rating := 8, poster_url := none, user_id := some 1 }] ++
         [{ id := dbAlice.nextMovieId + 1, title := "Dune", year := 1984,
            rating := 6, poster_url := none, user_id := some 2 }]) :=
  ⟨by decide, by decide, by decide,
   C7_per_owner 1 2 "Dune" 2021 1984 8 6 none none dbAlice
     (by decide) (by decide) (by decide)⟩

/-- Claim C9: the partial-update frame law.  When exactly one stored row
matches `(title, owner)`, then for every combination of supplied fields,
the post-update `list_movies` entry for the title carries the supplied
values for the supplied columns and the pre-update values for every
column not supplied (in particular, updating only the rating leaves
`year` — and `poster_url` — at their pre-update values). -/
theorem C9_update_frame (t : String) (u : Nat) (ro : Option Rat)
    (yo : Option Int) (po : Option String) (db : DB) (m0 : MovieRow)
    (huniq : db.movies.filter (movieMatches t u) = [m0]) :
    dictFind t (list_movies u db) = some (rowAttrs m0) ∧
    dictFind t (list_movies u (update_movie t u ro yo po db).2.2) =
      some [("year", Value.intV (yo.getD m0.year)),
            ("rating", Value.numV (ro.getD m0.rating)),
            ("poster_url", posterValue (po.or m0.poster_url))] := by
  have hfst : dictFind t (list_movies u db) = some (rowAttrs m0) :=
    dictFind_list_movies t u db m0 huniq
  refine ⟨hfst, ?_⟩
  by_cases hsup : (ro.isNone && yo.isNone && po.isNone) = true
  · obtain ⟨hr, hy, hp⟩ : ro = none ∧ yo = none ∧ po = none := by
      rcases ro with _ | _ <;> rcases yo with _ | _ <;>
        rcases po with _ | _ <;> simp_all
    subst hr; subst hy; subst hp
    simpa [Option.or, rowAttrs] using hfst
  · have hm0 : movieMatches t u m0 = true := by
      have hmem : m0 ∈ db.movies.filter (movieMatches t u) := by
        rw [huniq]; exact List.mem_singleton_self m0
      exact (List.mem_filter.1 hmem).2
    have hsnd : (update_movie t u ro yo po db).2.2 =
        { db with
            movies := db.movies.map (fun m =>
              if movieMatches t u m then applyUpdates ro yo po m else m) } := by
      simp [update_movie, hsup, huniq]
    rw [hsnd]
    have hfil2 :
        ({ db with
            movies := db.movies.map (fun m =>
              if movieMatches t u m then applyUpdates ro yo po m else m) } :
          DB).movies.filter (movieMatches t u) =
        [applyUpdates ro yo po m0] := by
      show (db.movies.map _).filter (movieMatches t u) = _
      rw [List.filter_map]
      have hcong : db.movies.filter
          ((movieMatches t u) ∘ (fun m =>
            if movieMatches t u m then applyUpdates ro yo po m else m)) =
          db.movies.filter (movieMatches t u) :=
        List.filter_congr (fun m _ => by
          by_cases h : movieMatches t u m = true <;>
            simp [Function.comp, h, movieMatches_applyUpdates])
      rw [hcong, huniq]
      simp [hm0]
    rw [dictFind_list_movies t u _ _ hfil2]
    cases ro <;> cases yo <;> cases po <;> rfl

theorem C9_update_frame_witness :
    dbDune.movies.filter (movieMatches "Dune" 1) = [duneRow] ∧
    (dictFind "Dune" (list_movies 1 dbDune) = some (rowAttrs duneRow) ∧
     dictFind "Dune"
         (list_movies 1 (update_movie "Dune" 1 (some 9) none none dbDune).2.2) =
       some [("year", Value.intV ((none : Option Int).getD duneRow.year)),
             ("rating", Value.numV ((some (9 : Rat)).getD duneRow.rating)),
             ("poster_url",
              posterValue ((none : Option String).or duneRow.poster_url))]) :=
  ⟨by decide,
   C9_update_frame "Dune" 1 (some 9) none none dbDune duneRow (by decide)⟩

/-- Claim C5 (counterexample): `list_users` orders by name under the
default case-sensitive BINARY collation, not case-insensitively: with
users `"B"` (id 1) and `"a"` (id 2) it returns `"B"` first, while the
case-insensitive ordering the claim asserts would put `"a"` first. -/
theorem C5_counterexample :
    list_users dbTwoUsers = [(1, "B"), (2, "a")] ∧
    list_users_spec dbTwoUsers = [(2, "a"), (1, "B")] ∧
    list_users dbTwoUsers ≠ list_users_spec dbTwoUsers := by decide

/-- Claim C5 (amended): `list_users` returns all (id, name) pairs
ordered by name ascending under the case-sensitive byte-wise
comparison (the SQLite default collation), and returns the empty sequence
when no users exist. -/
theorem C5_list_users (db : DB) :
    List.Pairwise (fun a b : Nat × String => strLe a.2 b.2 = true)
      (list_users db) ∧
    List.Perm (list_users db) (db.users.map (fun u => (u.id, u.name))) ∧
    (db.users = [] → list_users db = []) := by
  haveI : IsTotal UserRow nameLe :=
    ⟨fun a b => charListLe_total a.name.data b.name.data⟩
  haveI : IsTrans UserRow nameLe :=
    ⟨fun _ _ _ ha hb => charListLe_trans ha hb⟩
  refine ⟨?_, ?_, ?_⟩
  · have hs : List.Pairwise nameLe (List.insertionSort nameLe db.users) :=
      List.sorted_insertionSort nameLe db.users
    exact List.Pairwise.map _ (fun a b h => h) hs
  · exact (List.perm_insertionSort nameLe db.users).map _
  · intro h
    simp [list_users, h, List.insertionSort]

theorem C5_list_users_witness :
    List.Pairwise (fun a b : Nat × String => strLe a.2 b.2 = true)
      (list_users dbTwoUsers) ∧
    List.Perm (list_users dbTwoUsers)
      (dbTwoUsers.users.map (fun u => (u.id, u.name))) ∧
    list_users dbNoUsers = [] :=
  ⟨(C5_list_users dbTwoUsers).1, (C5_list_users dbTwoUsers).2.1,
   (C5_list_users dbNoUsers).2.2 rfl⟩

theorem find_default_mem (us : List UserRow)
    (h : ∃ x ∈ us, x.name = defaultUserName) :
    ∃ v, List.find? (fun u => decide (u.name = defaultUserName)) us = some v ∧
      v.name = defaultUserName := by
  have hs : (List.find? (fun u => decide (u.name = defaultUserName)) us).isSome
      = true := by
    rw [List.find?_isSome]
    obtain ⟨x, hx, hn⟩ := h
    exact ⟨x, hx, by simpa using hn⟩
  obtain ⟨v, hv⟩ := Option.isSome_iff_exists.1 hs
  exact ⟨v, hv, by simpa using List.find?_some hv⟩

theorem find_default_appended (us : List UserRow) (n : Nat)
    (h : ¬∃ x ∈ us, x.name = defaultUserName) :
    ∃ v, List.find? (fun u => decide (u.name = defaultUserName))
        (us ++ [{ id := n, name := defaultUserName }]) = some v ∧
      v.name = defaultUserName := by
  have hnone : List.find? (fun u => decide (u.name = defaultUserName)) us
      = none := by
    rw [List.find?_eq_none]
    intro x hx
    simp only [decide_eq_true_eq]
    exact fun hx2 => h ⟨x, hx, hx2⟩
  refine ⟨{ id := n, name := defaultUserName }, ?_, rfl⟩
  rw [List.find?_append, hnone]
  simp

/-- Claim C3 (counterexample): the claim asserts the null-owner backfill
runs on every bootstrap pass.  It runs only when the `user_id` column
was added during the pass: on this store, whose `movies` table already
has the column but still contains a `NULL`-owner row, a failure-free
bootstrap creates the `"Default"` user yet leaves the owner field of the row
`NULL`. -/
theorem C3_counterexample :
    bootstrap noFaults dbNullOwner = .ok dbNullOwnerBoot ∧
    findUser defaultUserName dbNullOwnerBoot.users =
      some { id := 1, name := defaultUserName } ∧
    dbNullOwnerBoot.movies.map (fun m => m.user_id) = [none] :=
  ⟨rfl, rfl, rfl⟩

/-- Claim C3 (amended): on every failure-free bootstrap pass a
`"Default"` user exists afterwards, but the null-owner backfill runs
only when the `user_id` column was added during this very pass: if the
column was absent, every row ends up owned by the `"Default"` user; if
the column already existed, the movie rows are left exactly as they
were (in particular `NULL` owners stay `NULL`). -/
theorem C3_backfill (s : DB)
    (hmv : s.moviesTable = false → s.movies = [])
    (hnull : s.hasUserIdCol = false → ∀ m ∈ s.movies, m.user_id = none) :
    ∃ s2, bootstrap noFaults s = .ok s2 ∧
      (∃ v, findUser defaultUserName s2.users = some v ∧
        v.name = defaultUserName) ∧
      (s.hasUserIdCol = false →
        ∀ m ∈ s2.movies,
          m.user_id = (findUser defaultUserName s2.users).map (fun v => v.id)) ∧
      (s.hasUserIdCol = true → s2.movies = s.movies) := by
  obtain ⟨uT, mT, hP, hU, us, ms, nU, nM⟩ := s
  simp only at hmv hnull
  cases uT <;> cases mT <;> cases hP <;> cases hU <;>
    simp_all [bootstrap, noFaults, findUser]
  all_goals refine ⟨?_, ?_⟩
  all_goals split
  all_goals first
    | rfl
    | (exact find_default_mem _ (by assumption))
    | (exact find_default_appended _ _ (by assumption))
    | (intro a ha; simp [hnull a ha])
    | simp

theorem C3_backfill_witness :
    ∃ s2, bootstrap noFaults dbLegacy = .ok s2 ∧
      (∃ v, findUser defaultUserName s2.users = some v ∧
        v.name = defaultUserName) ∧
      (dbLegacy.hasUserIdCol = false →
        ∀ m ∈ s2.movies,
          m.user_id = (findUser defaultUserName s2.users).map (fun v => v.id)) ∧
      (dbLegacy.hasUserIdCol = true → s2.movies = dbLegacy.movies) :=
  C3_backfill dbLegacy (by decide) (by decide)

/-- Claim C4 (counterexample): the claim asserts that any error while
adding a column, other than the column already existing, is fatal.  On
this store the `poster_url` column does not exist, so a failure of the
`ALTER TABLE` adding it is a genuine error — yet the bare
`except: pass` swallows it and bootstrap completes normally. -/
theorem C4_counterexample :
    dbNoPoster.hasPosterCol = false ∧
    bootstrap faultAlterPoster dbNoPoster = .ok dbNoPoster :=
  ⟨rfl, rfl⟩

/-- Claim C4 (amended): errors while creating the `users` or `movies`
table and errors in the backfill `UPDATE` are fatal (they propagate and
abort startup), but every error in the two column-adding `ALTER TABLE`
statements is silently swallowed, whether or not the column already
exists. -/
theorem C4_swallow (s : DB) :
    bootstrap faultCreateUsers s = .error .failure ∧
    bootstrap faultCreateMovies s = .error .failure ∧
    bootOk (bootstrap faultAlterPoster s) = true ∧
    bootOk (bootstrap faultAlterUserId s) = true ∧
    (s.moviesTable = true → s.hasUserIdCol = false →
      bootstrap faultBackfill s = .error .failure) := by
  obtain ⟨uT, mT, hP, hU, us, ms, nU, nM⟩ := s
  refine ⟨by simp [bootstrap, faultCreateUsers, noFaults],
    by simp [bootstrap, faultCreateMovies, noFaults], ?_, ?_, ?_⟩
  · cases uT <;> cases mT <;> cases hP <;> cases hU <;>
      simp [bootstrap, faultAlterPoster, noFaults, findUser, bootOk]
  · cases uT <;> cases mT <;> cases hP <;> cases hU <;>
      simp [bootstrap, faultAlterUserId, noFaults, findUser, bootOk]
  · intro hmt hcol
    subst hmt
    subst hcol
    cases uT <;> cases hP <;>
      simp [bootstrap, faultBackfill, noFaults, findUser]

theorem C4_swallow_witness :
    bootstrap faultCreateUsers dbLegacy = .error .failure ∧
    bootstrap faultBackfill dbLegacy = .error .failure :=
  ⟨(C4_swallow dbLegacy).1, (C4_swallow dbLegacy).2.2.2.2 rfl rfl⟩

end MoviesApp
